import Mathlib

/-!
Verification of the Encrypted Case Lifecycle Orchestrator
(frontend/web/src/App.tsx of the RareDisease_Z repository).

The App component's logic is embedded shallowly:

* React `useState` variables become fields of `AppState`; `setX`
  calls become functional updates of that record.
* Each asynchronous collaborator call (`ethers` contract methods,
  the fhevm-sdk `encrypt` / `verifyDecryption` hooks) is a field of
  `Env` returning `Except String _`; a `.error` value models a
  rejected promise.
* JavaScript exception flow is made explicit with the monad
  `M α = AppState → MRes α`: `MRes.thrown` is an in-flight
  exception, and state updates performed before a `throw` survive it,
  exactly as executed `setState` calls do in the source.
  `M.tryCatch` / `M.tryFinally` mirror `try { } catch { }` and
  `finally { }` blocks.
* Externally observable effects that the spec talks about
  (ledger transactions, verifier protocol rounds, scheduled
  status-clear timers, plaintexts handed to the encryption provider)
  are recorded in dedicated event-list fields of `AppState`.
  A `setTimeout(clear, d)` call is recorded as the delay `d` in
  `scheduledClears`; the timer callback itself only hides the banner
  later and is not part of the synchronous run.

UI-only state that no claim touches (`selectedCase`, `showFAQ`,
`loading`, `fhevmInitializing`) is omitted.
-/

/-- Status kind of the transaction banner: "pending" | "success" | "error"
(App.tsx line 30). -/
inductive StatusKind where
  | pending
  | success
  | error
deriving DecidableEq, Repr

/-- The `transactionStatus` state (App.tsx line 30). -/
structure TxStatus where
  visible : Bool
  status : StatusKind
  message : String
deriving DecidableEq, Repr

/-- The `newCaseData` form state (App.tsx line 35). -/
structure NewCaseData where
  name : String
  age : String
  diseaseType : String
  symptoms : String
deriving DecidableEq, Repr

/-- The `DiseaseCase` interface (App.tsx lines 9-21). -/
structure DiseaseCase where
  id : Int
  name : String
  age : Int
  diseaseType : String
  symptoms : String
  timestamp : Int
  creator : String
  publicValue1 : Int
  publicValue2 : Int
  isVerified : Bool
  decryptedValue : Int
deriving DecidableEq, Repr

/-- The record returned by `contract.getBusinessData` (fields read at
App.tsx lines 115-127). -/
structure RecordData where
  name : String
  description : String
  publicValue1 : Int
  publicValue2 : Int
  timestamp : Int
  creator : String
  isVerified : Bool
  decryptedValue : Int
deriving DecidableEq, Repr

/-- Result of the fhevm-sdk `encrypt` call (used at App.tsx lines 179-185). -/
structure EncryptedResult where
  encryptedData : String
  proof : String
deriving DecidableEq, Repr

/-- Arguments of one `contract.createBusinessData` submission
(App.tsx lines 181-189). -/
structure CreateTx where
  businessId : String
  name : String
  ciphertext : String
  proof : String
  publicValue1 : Int
  publicValue2 : Int
  description : String
deriving DecidableEq, Repr

/-- The React component state of `App`, plus event lists recording
externally observable effects of a run. -/
structure AppState where
  cases : List DiseaseCase
  isRefreshing : Bool
  showCreateModal : Bool
  creatingCase : Bool
  transactionStatus : TxStatus
  newCaseData : NewCaseData
  operationHistory : List String
  contractAddress : String
  /-- Delays (ms) of the `setTimeout` banner-clear timers scheduled during
  the run, in order of scheduling. -/
  scheduledClears : List Nat
  /-- `createBusinessData` transactions that were submitted (the call
  resolved rather than being rejected by the signer). -/
  createTxs : List CreateTx
  /-- Plaintexts handed to the fhevm `encrypt` call. -/
  encryptCalls : List Int
  /-- Handle lists passed to `verifyDecryption` (one entry per decryption
  protocol round started). -/
  verifierRounds : List (List String)
  /-- `verifyDecryption` ledger submissions that completed (business id). -/
  verifyTxs : List String
deriving DecidableEq, Repr

/-- Behaviour of the external collaborators during one run: the wagmi
account, the ethers contract handles and the fhevm-sdk hooks
(App.tsx lines 4-7, 49-51). `.error e` models a rejected promise whose
`message` is `e`; `contractRead`/`contractWrite` being `.ok false` models
`getContractReadOnly`/`getContractWithSigner` resolving to `null`. -/
structure Env where
  isConnected : Bool
  address : Option String
  /-- `Date.now()` (used for fresh business ids, App.tsx line 177). -/
  now : Int
  contractRead : Except String Bool
  contractWrite : Except String Bool
  getAllBusinessIds : Except String (List String)
  getBusinessData : String → Except String RecordData
  getEncryptedValue : String → Except String String
  isAvailable : Except String Bool
  encrypt : String → String → Int → Except String EncryptedResult
  createBusinessData : CreateTx → Except String Unit
  txWait : Except String Unit
  /-- `verifyDecryption(handles, contractAddress, submit)`; on success it
  yields the `clearValues` mapping from handle to cleartext (§6 of the
  spec: a total mapping over the requested handles). -/
  verifyDecryption : List String → String → Except String (String → Int)

/-- Result of running a modelled async function: either a resolved value
or an in-flight JavaScript exception, together with the component state
(state updates made before a `throw` persist). -/
inductive MRes (α : Type) where
  | ok : α → AppState → MRes α
  | thrown : String → AppState → MRes α

/-- A modelled async computation over the component state. -/
def M (α : Type) : Type := AppState → MRes α

/-- `try x catch (e) handler` (JavaScript semantics). -/
def M.tryCatch {α : Type} (x : M α) (handler : String → M α) : M α := fun s =>
  match x s with
  | .ok a s' => .ok a s'
  | .thrown e s' => handler e s'

/-- `try x finally fin` (JavaScript semantics: `fin` runs on both the
normal and the exceptional path, and an exception is re-thrown after it). -/
def M.tryFinally {α : Type} (x : M α) (fin : M Unit) : M α := fun s =>
  match x s with
  | .ok a s' =>
    match fin s' with
    | .ok _ s'' => .ok a s''
    | .thrown e s'' => .thrown e s''
  | .thrown e s' =>
    match fin s' with
    | .ok _ s'' => .thrown e s''
    | .thrown e' s'' => .thrown e' s''

/-- The component state a run ended in, whether it resolved or threw. -/
def MRes.state {α : Type} : MRes α → AppState
  | .ok _ s => s
  | .thrown _ s => s

/-- Whether a run resolved (no unhandled rejection). -/
def MRes.resolved {α : Type} : MRes α → Bool
  | .ok _ _ => true
  | .thrown _ _ => false

/-- Leading-whitespace removal (the only trimming `parseInt` performs that
matters before the digit scan). -/
def dropLeadingSpaces : List Char → List Char
  | [] => []
  | c :: cs => if c.isWhitespace then dropLeadingSpaces cs else c :: cs

/-- JavaScript `parseInt(s)` (radix 10): skip whitespace, optional sign,
then the longest leading digit run; `none` models `NaN`. -/
def parseJsInt (s : String) : Option Int :=
  let p : Int × List Char :=
    match dropLeadingSpaces s.toList with
    | '-' :: cs => (-1, cs)
    | '+' :: cs => (1, cs)
    | cs => (1, cs)
  let ds := p.2.takeWhile Char.isDigit
  if ds.isEmpty then none
  else some (p.1 * ds.foldl (fun n c => n * 10 + ((c.toNat : Int) - 48)) 0)

/-- JavaScript `x || d` on a number that may be `NaN` (`none`): `NaN` and
`0` are falsy and give the default. -/
def jsOrI (x : Option Int) (dflt : Int) : Int :=
  match x with
  | none => dflt
  | some v => if v = 0 then dflt else v

/-- Whether `pat` is a prefix of the second list. -/
def charsStartWith : List Char → List Char → Bool
  | [], _ => true
  | _ :: _, [] => false
  | a :: as, b :: bs => a == b && charsStartWith as bs

/-- Whether `pat` occurs as a contiguous run in the second list. -/
def charsContain (pat : List Char) : List Char → Bool
  | [] => pat.isEmpty
  | c :: cs => charsStartWith pat (c :: cs) || charsContain pat cs

/-- JavaScript `s.includes(sub)`. -/
def jsIncludes (s sub : String) : Bool := charsContain sub.toList s.toList

/-- JavaScript `s.replace(pat, repl)` with a string pattern: replaces the
first occurrence only. -/
def jsReplaceFirst (s pat repl : String) : String :=
  match s.splitOn pat with
  | x :: y :: rest => x ++ repl ++ String.intercalate pat (y :: rest)
  | _ => s

/-- `setTransactionStatus({visible: true, status, message})`. -/
def setStatusE (s : AppState) (k : StatusKind) (msg : String) : AppState :=
  { s with transactionStatus := { visible := true, status := k, message := msg } }

/-- Record a `setTimeout(clear-banner, d)` call. -/
def scheduleClear (d : Nat) (s : AppState) : AppState :=
  { s with scheduledClears := s.scheduledClears ++ [d] }

/-- The update applied by `addToHistory` to the `operationHistory` list:
`[operation, ...prev.slice(0, 9)]` (App.tsx line 98). -/
def historyPrepend (operation : String) (prev : List String) : List String :=
  operation :: prev.take 9

/-- `addToHistory(operation)` (App.tsx lines 97-99). -/
def addToHistory (operation : String) (s : AppState) : AppState :=
  { s with operationHistory := historyPrepend operation s.operationHistory }

/-- One iteration of the record-fetch loop of `loadData`
(App.tsx lines 115-127): builds the `DiseaseCase` pushed onto `casesList`. -/
def businessToCase (env : Env) (businessId : String) (d : RecordData) : DiseaseCase :=
  { id := jsOrI (parseJsInt (jsReplaceFirst businessId "case-" "")) env.now
    name := d.name
    age := jsOrI (some d.publicValue1) 0
    diseaseType := d.description
    symptoms := "Symptoms recorded"
    timestamp := d.timestamp
    creator := d.creator
    publicValue1 := jsOrI (some d.publicValue1) 0
    publicValue2 := jsOrI (some d.publicValue2) 0
    isVerified := d.isVerified
    decryptedValue := jsOrI (some d.decryptedValue) 0 }

/-- The `for (const businessId of businessIds)` loop of `loadData`
(App.tsx lines 112-131): each record is fetched in its own try/catch, a
failed fetch only logs to the console and the record is skipped. -/
def buildCases (env : Env) : List String → List DiseaseCase
  | [] => []
  | businessId :: rest =>
    match env.getBusinessData businessId with
    | .ok d => businessToCase env businessId d :: buildCases env rest
    | .error _ => buildCases env rest

/-- The try-block body of `loadData` (App.tsx lines 105-134). -/
def loadDataBody (env : Env) : M Unit := fun s =>
  match env.contractRead with
  | .error e => .thrown e s
  | .ok false => .ok () s
  | .ok true =>
    match env.getAllBusinessIds with
    | .error e => .thrown e s
    | .ok ids =>
      let casesList := buildCases env ids
      let s := { s with cases := casesList }
      .ok () (addToHistory
        ("Data refreshed: " ++ toString casesList.length ++ " cases loaded") s)

/-- `loadData` (App.tsx lines 101-141). -/
def loadData (env : Env) : M Unit := fun s =>
  if !env.isConnected then .ok () s
  else
    M.tryFinally
      (M.tryCatch (loadDataBody env)
        (fun _ => fun s =>
          .ok () (scheduleClear 3000 (setStatusE s .error "Failed to load data"))))
      (fun s => .ok () { s with isRefreshing := false })
      { s with isRefreshing := true }

/-- The try-block body of `testAvailability` (App.tsx lines 146-154). -/
def testAvailabilityBody (env : Env) : M Unit := fun s =>
  match env.contractRead with
  | .error e => .thrown e s
  | .ok false => .ok () s
  | .ok true =>
    match env.isAvailable with
    | .error e => .thrown e s
    | .ok false => .ok () s
    | .ok true =>
      .ok () (addToHistory "System availability checked: Ready"
        (setStatusE s .success "FHE System is available and ready!"))

/-- `testAvailability` (App.tsx lines 143-160). Note that its `finally`
block schedules the banner clear with a 2000 ms delay on the error path
as well. -/
def testAvailability (env : Env) : M Unit := fun s =>
  if !env.isConnected then .ok () s
  else
    M.tryFinally
      (M.tryCatch (testAvailabilityBody env)
        (fun _ => fun s => .ok () (setStatusE s .error "Availability check failed")))
      (fun s => .ok () (scheduleClear 2000 s))
      s

/-- The arguments of the `createBusinessData` call assembled by
`createCase` (App.tsx lines 176-189): the freshly generated time-based
key, the form fields, the ciphertext and proof, the cleartext age as the
first public companion value and `0` as the second. -/
def plannedTx (env : Env) (form : NewCaseData) (enc : EncryptedResult) : CreateTx :=
  { businessId := "case-" ++ toString env.now
    name := form.name
    ciphertext := enc.encryptedData
    proof := enc.proof
    publicValue1 := jsOrI (parseJsInt form.age) 0
    publicValue2 := 0
    description := form.diseaseType }

/-- The try-block body of `createCase` (App.tsx lines 172-202). The
submitted transaction is recorded once `createBusinessData` resolves
(a signer rejection means nothing reached the ledger). -/
def createBody (env : Env) : M Unit := fun s =>
  match env.contractWrite with
  | .error e => .thrown e s
  | .ok false => .thrown "Failed to get contract with signer" s
  | .ok true =>
    let ageValue := jsOrI (parseJsInt s.newCaseData.age) 0
    let s1 := { s with encryptCalls := s.encryptCalls ++ [ageValue] }
    match env.encrypt s.contractAddress (env.address.getD "") ageValue with
    | .error e => .thrown e s1
    | .ok enc =>
      let tx : CreateTx := plannedTx env s.newCaseData enc
      match env.createBusinessData tx with
      | .error e => .thrown e s1
      | .ok _ =>
        let s2 := setStatusE { s1 with createTxs := s1.createTxs ++ [tx] }
          .pending "Storing encrypted data on blockchain..."
        match env.txWait with
        | .error e => .thrown e s2
        | .ok _ =>
          let s3 := scheduleClear 2000
            (addToHistory ("New case created: " ++ s.newCaseData.name)
              (setStatusE s2 .success "Patient case created successfully!"))
          match loadData env s3 with
          | .thrown e s4 => .thrown e s4
          | .ok _ s4 =>
            .ok () { s4 with showCreateModal := false
                             newCaseData := ⟨"", "", "", ""⟩ }

/-- `createCase` (App.tsx lines 162-212). -/
def createCase (env : Env) : M Unit := fun s =>
  if !(env.isConnected && env.address.isSome) then
    .ok () (scheduleClear 3000 (setStatusE s .error "Please connect wallet first"))
  else
    M.tryFinally
      (M.tryCatch (createBody env)
        (fun e => fun s =>
          let errMsg :=
            if jsIncludes e "user rejected transaction" then "Transaction rejected"
            else "Creation failed: " ++ (if e = "" then "Unknown error" else e)
          .ok () (scheduleClear 3000 (setStatusE s .error errMsg))))
      (fun s => .ok () { s with creatingCase := false })
      (setStatusE { s with creatingCase := true }
        .pending "Encrypting patient data with FHE...")

/-- The try-block body of `decryptData` (App.tsx lines 221-258). -/
def decryptBody (env : Env) (businessId : String) : M (Option Int) := fun s =>
  match env.contractRead with
  | .error e => .thrown e s
  | .ok false => .ok none s
  | .ok true =>
    match env.getBusinessData businessId with
    | .error e => .thrown e s
    | .ok d =>
      if d.isVerified then
        let storedValue := jsOrI (some d.decryptedValue) 0
        .ok (some storedValue)
          (addToHistory ("Data verified for case: " ++ d.name)
            (scheduleClear 2000 (setStatusE s .success "Data already verified")))
      else
        match env.contractWrite with
        | .error e => .thrown e s
        | .ok false => .ok none s
        | .ok true =>
          match env.getEncryptedValue businessId with
          | .error e => .thrown e s
          | .ok handle =>
            let s1 := { s with verifierRounds := s.verifierRounds ++ [[handle]] }
            match env.verifyDecryption [handle] s1.contractAddress with
            | .error e => .thrown e s1
            | .ok clearValues =>
              let s2 := setStatusE { s1 with verifyTxs := s1.verifyTxs ++ [businessId] }
                .pending "Verifying decryption..."
              let clearValue := clearValues handle
              match loadData env s2 with
              | .thrown e s3 => .thrown e s3
              | .ok _ s3 =>
                .ok (some clearValue)
                  (scheduleClear 2000
                    (setStatusE
                      (addToHistory ("Data decrypted for case: " ++ d.name) s3)
                      .success "Data decrypted successfully!"))

/-- The catch-block of `decryptData` (App.tsx lines 260-271): an
"already verified" failure converges on the success path (reload,
success banner, resolve to `null`); anything else is a generic
decryption failure. -/
def decryptCatch (env : Env) (e : String) : M (Option Int) := fun s =>
  if jsIncludes e "Data already verified" then
    let s1 := scheduleClear 2000 (setStatusE s .success "Data is already verified")
    match loadData env s1 with
    | .thrown e' s2 => .thrown e' s2
    | .ok _ s2 => .ok none s2
  else
    .ok none (scheduleClear 3000 (setStatusE s .error "Decryption failed"))

/-- `decryptData` (App.tsx lines 214-272). -/
def decryptData (env : Env) (businessId : String) : M (Option Int) := fun s =>
  if !(env.isConnected && env.address.isSome) then
    .ok none (scheduleClear 3000 (setStatusE s .error "Please connect wallet first"))
  else
    M.tryCatch (decryptBody env businessId) (decryptCatch env) s

/-- The resolved value of a run (`none` if it ended in a thrown exception). -/
def MRes.value? {α : Type} : MRes α → Option α
  | .ok a _ => some a
  | .thrown _ _ => none

/-- `Number(v) || 0` on an actual integer is the identity. -/
theorem jsOrI_some_zero (v : Int) : jsOrI (some v) 0 = v := by
  simp only [jsOrI]
  split <;> omega

/-- `loadData` handles every collaborator failure itself and never ends in
an unhandled rejection. -/
theorem loadData_resolved (env : Env) (s : AppState) :
    (loadData env s).resolved = true := by
  unfold loadData
  by_cases h : env.isConnected = true
  · simp only [h, Bool.not_true, Bool.false_eq_true, if_false, M.tryFinally, M.tryCatch]
    cases hb : loadDataBody env { s with isRefreshing := true } <;> simp [MRes.resolved]
  · simp only [Bool.not_eq_true] at h
    simp [h, MRes.resolved]

/-- The catch-block of `decryptData` itself never throws: on the
"already verified" path the awaited reload handles its own failures. -/
theorem decryptCatch_resolved (env : Env) (e : String) (s : AppState) :
    (decryptCatch env e s).resolved = true := by
  unfold decryptCatch
  by_cases h : jsIncludes e "Data already verified" = true
  · simp only [h, if_true]
    cases hl : loadData env
        (scheduleClear 2000 (setStatusE s .success "Data is already verified")) with
    | ok a s2 => simp [MRes.resolved]
    | thrown e' s2 =>
      have hres := loadData_resolved env
        (scheduleClear 2000 (setStatusE s .success "Data is already verified"))
      rw [hl] at hres
      simp [MRes.resolved] at hres
  · simp only [Bool.not_eq_true] at h
    simp [h, MRes.resolved]

/-- C6: for every behaviour of the collaborators (including every one of
them failing) and every starting state, `decryptData` resolves — to an
integer or an explicit `null` — and never ends in an unhandled rejection. -/
theorem decrypt_never_throws (env : Env) (businessId : String) (s : AppState) :
    (decryptData env businessId s).resolved = true := by
  unfold decryptData
  by_cases h : (env.isConnected && env.address.isSome) = true
  · simp only [h, Bool.not_true, Bool.false_eq_true, if_false, M.tryCatch]
    cases hb : decryptBody env businessId s with
    | ok a s' => simp [MRes.resolved]
    | thrown e s' => exact decryptCatch_resolved env e s'
  · simp only [Bool.not_eq_true] at h
    simp [h, MRes.resolved]

/-- C9: the operation log is pure and bounded: a prepend keeps at most the
10 most recent entries, and appending 12 entries to an empty log leaves
exactly the 10 most recent, newest first. -/
theorem history_bound_and_order :
    (∀ (op : String) (prev : List String), (historyPrepend op prev).length ≤ 10)
    ∧ (∀ e1 e2 e3 e4 e5 e6 e7 e8 e9 e10 e11 e12 : String,
        [e1, e2, e3, e4, e5, e6, e7, e8, e9, e10, e11, e12].foldl
          (fun acc op => historyPrepend op acc) []
        = [e12, e11, e10, e9, e8, e7, e6, e5, e4, e3]) := by
  constructor
  · intro op prev
    simp only [historyPrepend, List.length_cons, List.length_take]
    omega
  · intro e1 e2 e3 e4 e5 e6 e7 e8 e9 e10 e11 e12
    rfl

/-- On a record whose `isVerified` flag is set, `decryptData` takes the
early-return branch: it resolves to the stored cleartext and only touches
the banner and the log. -/
theorem decrypt_verified_run
    (env : Env) (businessId : String) (s : AppState) (d : RecordData)
    (hConn : env.isConnected = true)
    (hAddr : env.address.isSome = true)
    (hRead : env.contractRead = .ok true)
    (hData : env.getBusinessData businessId = .ok d)
    (hVer : d.isVerified = true) :
    decryptData env businessId s
    = .ok (some d.decryptedValue)
        (addToHistory ("Data verified for case: " ++ d.name)
          (scheduleClear 2000 (setStatusE s .success "Data already verified"))) := by
  simp [decryptData, M.tryCatch, decryptBody, hConn, hAddr, hRead, hData, hVer,
    jsOrI_some_zero]

/-- C2: a decrypt on an already-verified record returns the stored
cleartext immediately — no verifier round is started, no transaction is
submitted, the snapshot is untouched — and a second decrypt straight after
returns the same value (pure, idempotent read). -/
theorem decrypt_verified_idempotent
    (env : Env) (businessId : String) (s : AppState) (d : RecordData)
    (hConn : env.isConnected = true)
    (hAddr : env.address.isSome = true)
    (hRead : env.contractRead = .ok true)
    (hData : env.getBusinessData businessId = .ok d)
    (hVer : d.isVerified = true) :
    (decryptData env businessId s).value? = some (some d.decryptedValue)
    ∧ ((decryptData env businessId s).state).verifierRounds = s.verifierRounds
    ∧ ((decryptData env businessId s).state).verifyTxs = s.verifyTxs
    ∧ ((decryptData env businessId s).state).createTxs = s.createTxs
    ∧ ((decryptData env businessId s).state).cases = s.cases
    ∧ (decryptData env businessId ((decryptData env businessId s).state)).value?
        = some (some d.decryptedValue) := by
  have h1 := decrypt_verified_run env businessId s d hConn hAddr hRead hData hVer
  rw [h1]
  have h2 := decrypt_verified_run env businessId
    (addToHistory ("Data verified for case: " ++ d.name)
      (scheduleClear 2000 (setStatusE s .success "Data already verified")))
    d hConn hAddr hRead hData hVer
  simp only [MRes.state, MRes.value?]
  rw [h2]
  simp [addToHistory, scheduleClear, setStatusE]

/-- A quiescent component state (as after the initial render). -/
def state0 : AppState :=
  { cases := []
    isRefreshing := false
    showCreateModal := false
    creatingCase := false
    transactionStatus := { visible := false, status := .pending, message := "" }
    newCaseData := { name := "", age := "", diseaseType := "", symptoms := "" }
    operationHistory := []
    contractAddress := "0xcontract"
    scheduledClears := []
    createTxs := []
    encryptCalls := []
    verifierRounds := []
    verifyTxs := []
    }

/-- A ledger record whose sensitive field is already verified. -/
def recVerified : RecordData :=
  { name := "Bob"
    description := "Cystic Fibrosis"
    publicValue1 := 42
    publicValue2 := 0
    timestamp := 1700000000
    creator := "0xabc"
    isVerified := true
    decryptedValue := 42 }

/-- Collaborators that all answer, serving `recVerified` for every key. -/
def envVerified : Env :=
  { isConnected := true
    address := some "0xabc"
    now := 1700000001000
    contractRead := .ok true
    contractWrite := .ok true
    getAllBusinessIds := .ok ["case-7"]
    getBusinessData := fun _ => .ok recVerified
    getEncryptedValue := fun _ => .ok "0xhandle"
    isAvailable := .ok true
    encrypt := fun _ _ _ => .ok { encryptedData := "0xct", proof := "0xpf" }
    createBusinessData := fun _ => .ok ()
    txWait := .ok ()
    verifyDecryption := fun _ _ => .ok (fun _ => 42) }

/-- Witness for C2 at a concrete verified record. -/
theorem decrypt_verified_idempotent_witness :
    (decryptData envVerified "case-7" state0).value? = some (some 42)
    ∧ ((decryptData envVerified "case-7" state0).state).verifierRounds = []
    ∧ ((decryptData envVerified "case-7" state0).state).verifyTxs = []
    ∧ ((decryptData envVerified "case-7" state0).state).createTxs = []
    ∧ ((decryptData envVerified "case-7" state0).state).cases = []
    ∧ (decryptData envVerified "case-7"
        ((decryptData envVerified "case-7" state0).state)).value?
        = some (some 42) :=
  decrypt_verified_idempotent envVerified "case-7" state0 recVerified
    rfl rfl rfl rfl rfl

/-- The record-fetch loop keeps exactly the successfully fetched records,
in key order. -/
theorem buildCases_eq_filterMap (env : Env) (ids : List String) :
    buildCases env ids = ids.filterMap (fun businessId =>
      (env.getBusinessData businessId).toOption.map (businessToCase env businessId)) := by
  induction ids with
  | nil => rfl
  | cons b rest ih =>
    simp only [buildCases, List.filterMap_cons]
    cases h : env.getBusinessData b <;> simp [h, Except.toOption, ih]

/-- C3: a reload whose key-list fetch succeeds ends with a snapshot of
exactly the successfully fetched records (failed ones skipped) and still
counts as a success (no error banner, a refresh log entry); a reload whose
key-list fetch fails leaves the visible snapshot unchanged and surfaces an
error banner. -/
theorem reload_partial_success :
    (∀ (env : Env) (s : AppState) (ids : List String),
      env.isConnected = true →
      env.contractRead = .ok true →
      env.getAllBusinessIds = .ok ids →
      (loadData env s).resolved = true
      ∧ ((loadData env s).state).cases
          = ids.filterMap (fun businessId =>
              (env.getBusinessData businessId).toOption.map (businessToCase env businessId))
      ∧ ((loadData env s).state).transactionStatus = s.transactionStatus
      ∧ ((loadData env s).state).operationHistory
          = historyPrepend
              ("Data refreshed: " ++ toString (buildCases env ids).length ++ " cases loaded")
              s.operationHistory)
    ∧ (∀ (env : Env) (s : AppState) (e : String),
      env.isConnected = true →
      env.contractRead = .ok true →
      env.getAllBusinessIds = .error e →
      (loadData env s).resolved = true
      ∧ ((loadData env s).state).cases = s.cases
      ∧ ((loadData env s).state).transactionStatus.status = .error) := by
  constructor
  · intro env s ids hConn hRead hIds
    simp [loadData, hConn, M.tryFinally, M.tryCatch, loadDataBody, hRead, hIds,
      MRes.resolved, MRes.state, addToHistory, buildCases_eq_filterMap]
  · intro env s e hConn hRead hIds
    simp [loadData, hConn, M.tryFinally, M.tryCatch, loadDataBody, hRead, hIds,
      MRes.resolved, MRes.state, scheduleClear, setStatusE]

/-- A ledger record whose sensitive field is not yet verified. -/
def recUnverified : RecordData :=
  { name := "Alice"
    description := "Muscular Dystrophy"
    publicValue1 := 34
    publicValue2 := 0
    timestamp := 1700000000
    creator := "0xabc"
    isVerified := false
    decryptedValue := 0 }

/-- Five record keys of which the second and the fourth fail to fetch. -/
def env5 : Env :=
  { envVerified with
    getAllBusinessIds := .ok ["case-1", "case-2", "case-3", "case-4", "case-5"]
    getBusinessData := fun k =>
      if k = "case-2" then .error "record fetch failed"
      else if k = "case-4" then .error "record fetch failed"
      else .ok recUnverified }

/-- Collaborators whose key-list fetch itself rejects. -/
def envListFail : Env :=
  { envVerified with getAllBusinessIds := .error "network down" }

/-- A state already holding a one-record snapshot. -/
def statePrev : AppState :=
  { state0 with cases := [businessToCase envVerified "case-7" recVerified] }

/-- Witness for C3: with 3 of 5 records fetching successfully the snapshot
has exactly 3 records; with a failing key-list fetch the previous
snapshot survives. -/
theorem reload_partial_success_witness :
    ((loadData env5 state0).state).cases.length = 3
    ∧ ((loadData envListFail statePrev).state).cases = statePrev.cases := by
  have hA := reload_partial_success.1 env5 state0
    ["case-1", "case-2", "case-3", "case-4", "case-5"] rfl rfl rfl
  have hB := reload_partial_success.2 envListFail statePrev "network down" rfl rfl rfl
  exact ⟨by rw [hA.2.1]; rfl, hB.2.1⟩

/-- C5: when the verifiable-decryption round fails with an
"already verified" cause, `decryptData` converges on the success path:
success banner (not an error), a triggered reload with its log entry, and
a resolved `null` rather than a rejection. -/
theorem decrypt_already_verified_race_converges
    (env : Env) (businessId handle : String) (s : AppState) (d : RecordData)
    (e : String) (ids : List String)
    (hConn : env.isConnected = true)
    (hAddr : env.address.isSome = true)
    (hRead : env.contractRead = .ok true)
    (hData : env.getBusinessData businessId = .ok d)
    (hVer : d.isVerified = false)
    (hWrite : env.contractWrite = .ok true)
    (hHandle : env.getEncryptedValue businessId = .ok handle)
    (hRound : env.verifyDecryption [handle] s.contractAddress = .error e)
    (hMsg : jsIncludes e "Data already verified" = true)
    (hIds : env.getAllBusinessIds = .ok ids) :
    (decryptData env businessId s).value? = some none
    ∧ ((decryptData env businessId s).state).transactionStatus
        = { visible := true, status := .success, message := "Data is already verified" }
    ∧ ((decryptData env businessId s).state).scheduledClears
        = s.scheduledClears ++ [2000]
    ∧ ((decryptData env businessId s).state).cases = buildCases env ids
    ∧ ((decryptData env businessId s).state).operationHistory
        = historyPrepend
            ("Data refreshed: " ++ toString (buildCases env ids).length ++ " cases loaded")
            s.operationHistory := by
  simp [decryptData, M.tryCatch, decryptBody, decryptCatch, hConn, hAddr, hRead,
    hData, hVer, hWrite, hHandle, hRound, hMsg, hIds, loadData, M.tryFinally,
    loadDataBody, MRes.value?, MRes.state, scheduleClear, setStatusE, addToHistory]

/-- Collaborators for which the decryption round rejects with an
"already verified" revert reason. -/
def envRace : Env :=
  { envVerified with
    getAllBusinessIds := .ok ["case-7"]
    getBusinessData := fun _ => .ok recUnverified
    verifyDecryption := fun _ _ => .error "execution reverted: Data already verified" }

/-- Witness for C5 at a concrete "already verified" race. -/
theorem decrypt_already_verified_race_converges_witness :
    (decryptData envRace "case-7" state0).value? = some none
    ∧ ((decryptData envRace "case-7" state0).state).transactionStatus
        = { visible := true, status := .success, message := "Data is already verified" }
    ∧ ((decryptData envRace "case-7" state0).state).scheduledClears = [2000]
    ∧ ((decryptData envRace "case-7" state0).state).cases = buildCases envRace ["case-7"]
    ∧ ((decryptData envRace "case-7" state0).state).operationHistory
        = ["Data refreshed: 1 cases loaded"] :=
  decrypt_already_verified_race_converges envRace "case-7" "0xhandle" state0
    recUnverified "execution reverted: Data already verified" ["case-7"]
    rfl rfl rfl rfl rfl rfl rfl rfl (by decide) rfl

/-- Form state filled in as by the create modal. -/
def stateForm : AppState :=
  { state0 with newCaseData :=
      { name := "Alice", age := "34", diseaseType := "Muscular Dystrophy", symptoms := "" } }

/-- Collaborators for which creation and the follow-up reload fully
succeed, the reload returning one record. -/
def envCreate : Env :=
  { envVerified with
    getAllBusinessIds := .ok ["case-9"]
    getBusinessData := fun _ => .ok recUnverified }

/-- Counterexample to C7 as stated: a fully successful `createCase` run
(one transaction submitted, success banner) appends TWO operation-log
entries end-to-end — its own "New case created" entry plus the
"Data refreshed" entry of the reload it triggers — not exactly one. -/
theorem create_appends_two_log_entries :
    ((createCase envCreate stateForm).state).operationHistory
      = ["Data refreshed: 1 cases loaded", "New case created: Alice"]
    ∧ ((createCase envCreate stateForm).state).createTxs.length = 1
    ∧ ((createCase envCreate stateForm).state).transactionStatus.status = .success := by
  decide

/-- A `createCase` run that ends showing an error banner — whichever step
failed: wallet guard, missing signer, encryption, signer rejection,
confirmation wait, or the key-list fetch of the triggered reload — leaves
the case snapshot unchanged, and the most recently scheduled banner-clear
timer is the 3000 ms one. -/
theorem createCase_error_effects (env : Env) (s : AppState)
    (hErr : ((createCase env s).state).transactionStatus.status = .error) :
    ((createCase env s).state).cases = s.cases
    ∧ ((createCase env s).state).scheduledClears.getLast? = some 3000 := by
  by_cases hG : (env.isConnected && env.address.isSome) = true
  · obtain ⟨hConn, hAddr⟩ : env.isConnected = true ∧ env.address.isSome = true := by
      simpa using hG
    rcases hao : env.address with _ | a
    · rw [hao] at hAddr
      simp at hAddr
    · rcases hcw : env.contractWrite with e | b
      · constructor <;>
          simp [createCase, hG, hConn, hao, M.tryFinally, M.tryCatch, createBody, hcw,
            MRes.state, scheduleClear, setStatusE, List.getLast?_concat]
      · cases b
        · constructor <;>
            simp [createCase, hG, hConn, hao, M.tryFinally, M.tryCatch, createBody, hcw,
              MRes.state, scheduleClear, setStatusE, List.getLast?_concat]
        · rcases hE : env.encrypt s.contractAddress a
              (jsOrI (parseJsInt s.newCaseData.age) 0) with e | encr
          · constructor <;>
              simp [createCase, hG, hConn, hao, M.tryFinally, M.tryCatch, createBody,
                hcw, hE, MRes.state, scheduleClear, setStatusE, List.getLast?_concat]
          · rcases hS : env.createBusinessData (plannedTx env s.newCaseData encr)
                with e | u
            · constructor <;>
                simp [createCase, hG, hConn, hao, M.tryFinally, M.tryCatch, createBody,
                  hcw, hE, hS, MRes.state, scheduleClear, setStatusE,
                  List.getLast?_concat]
            · rcases hT : env.txWait with e | u2
              · constructor <;>
                  simp [createCase, hG, hConn, hao, M.tryFinally, M.tryCatch,
                    createBody, hcw, hE, hS, hT, MRes.state, scheduleClear, setStatusE,
                    List.getLast?_concat]
              · rcases hcr : env.contractRead with e | b2
                · constructor <;>
                    simp [createCase, hG, hConn, hao, M.tryFinally, M.tryCatch,
                      createBody, hcw, hE, hS, hT, hcr, loadData, loadDataBody,
                      MRes.state, scheduleClear, setStatusE, addToHistory,
                      List.getLast?_concat]
                · cases b2
                  · simp [createCase, hG, hConn, hao, M.tryFinally, M.tryCatch,
                      createBody, hcw, hE, hS, hT, hcr, loadData, loadDataBody,
                      MRes.state, scheduleClear, setStatusE, addToHistory] at hErr
                  · rcases hid : env.getAllBusinessIds with e | ids
                    · constructor <;>
                        simp [createCase, hG, hConn, hao, M.tryFinally, M.tryCatch,
                          createBody, hcw, hE, hS, hT, hcr, hid, loadData,
                          loadDataBody, MRes.state, scheduleClear, setStatusE,
                          addToHistory, List.getLast?_concat]
                    · simp [createCase, hG, hConn, hao, M.tryFinally, M.tryCatch,
                        createBody, hcw, hE, hS, hT, hcr, hid, loadData, loadDataBody,
                        MRes.state, scheduleClear, setStatusE, addToHistory] at hErr
  · constructor <;>
      simp [createCase, hG, MRes.state, scheduleClear, setStatusE,
        List.getLast?_concat]

/-- C7 (amended): a successful create submits its transaction and appends
one log entry itself, and the reload it triggers as step 4 appends its own
refresh entry — two entries end-to-end when the reload succeeds; and on
failure no Case is added: every `createCase` run that ends with an error
banner, whichever step failed, leaves the snapshot unchanged. -/
theorem create_log_and_failure_behavior :
    (∀ (env : Env) (s : AppState) (enc : EncryptedResult) (ids : List String),
      env.isConnected = true →
      env.address.isSome = true →
      env.contractWrite = .ok true →
      env.encrypt s.contractAddress (env.address.getD "")
          (jsOrI (parseJsInt s.newCaseData.age) 0) = .ok enc →
      env.createBusinessData (plannedTx env s.newCaseData enc) = .ok () →
      env.txWait = .ok () →
      env.contractRead = .ok true →
      env.getAllBusinessIds = .ok ids →
      (createCase env s).resolved = true
      ∧ ((createCase env s).state).createTxs
          = s.createTxs ++ [plannedTx env s.newCaseData enc]
      ∧ ((createCase env s).state).operationHistory
          = historyPrepend
              ("Data refreshed: " ++ toString (buildCases env ids).length ++ " cases loaded")
              (historyPrepend ("New case created: " ++ s.newCaseData.name)
                s.operationHistory))
    ∧ (∀ (env : Env) (s : AppState),
      ((createCase env s).state).transactionStatus.status = .error →
      ((createCase env s).state).cases = s.cases) := by
  constructor
  · intro env s enc ids hConn hAddr hWrite hEnc hSub hWait hRead hIds
    simp [createCase, M.tryFinally, M.tryCatch, createBody, hConn, hAddr, hWrite,
      hEnc, hSub, hWait, hRead, hIds, loadData, loadDataBody, MRes.resolved,
      MRes.state, setStatusE, scheduleClear, addToHistory]
  · intro env s hErr
    exact (createCase_error_effects env s hErr).1

/-- Collaborators whose signer rejects the creation transaction. -/
def envCreateRejected : Env :=
  { envCreate with createBusinessData := fun _ => .error "user rejected transaction" }

/-- Collaborators whose confirmation wait (`tx.wait()`) rejects after the
transaction was submitted. -/
def envWaitFail : Env :=
  { envCreate with txWait := .error "transaction failed" }

/-- Witness for the amended C7 at concrete runs: a fully successful
create, a signer-rejected create, and a create whose confirmation wait
fails after submission — the latter two add no Case. -/
theorem create_log_and_failure_behavior_witness :
    ((createCase envCreate stateForm).state).createTxs
      = stateForm.createTxs
          ++ [plannedTx envCreate stateForm.newCaseData ⟨"0xct", "0xpf"⟩]
    ∧ ((createCase envCreateRejected stateForm).state).cases = []
    ∧ ((createCase envWaitFail stateForm).state).cases = [] := by
  have hA := create_log_and_failure_behavior.1 envCreate stateForm
    ⟨"0xct", "0xpf"⟩ ["case-9"] rfl rfl rfl rfl rfl rfl rfl rfl
  have hB := create_log_and_failure_behavior.2 envCreateRejected stateForm (by decide)
  have hC := create_log_and_failure_behavior.2 envWaitFail stateForm (by decide)
  exact ⟨hA.2.1, hB, hC⟩

/-- Collaborators whose availability probe rejects. -/
def envAvailFail : Env :=
  { envVerified with isAvailable := .error "rpc failure" }

/-- Counterexample to C8 as stated: the availability check failure sets an
error banner but schedules its auto-clear after 2000 ms (its `finally`
block uses the 2-second delay on every path), not after the claimed fixed
3-second delay — so this error banner does not linger longer than a
success banner. -/
theorem availability_error_clears_after_two_seconds :
    ((testAvailability envAvailFail state0).state).transactionStatus.status = .error
    ∧ ((testAvailability envAvailFail state0).state).scheduledClears = [2000] := by
  decide

/-- C8 (amended): failures of reload and decrypt set an error banner that
auto-clears after 3000 ms, and every `createCase` run that ends with an
error banner — whichever step failed — has the 3000 ms clear as its most
recently scheduled timer; a successful create sets a success banner that
auto-clears after 2000 ms; the availability check is the exception: its
error banner also auto-clears after 2000 ms, no slower than a success
banner. -/
theorem status_banner_delays :
    (∀ (env : Env) (s : AppState) (e : String),
      env.isConnected = true →
      env.contractRead = .ok true →
      env.isAvailable = .error e →
      ((testAvailability env s).state).transactionStatus.status = .error
      ∧ ((testAvailability env s).state).scheduledClears = s.scheduledClears ++ [2000])
    ∧ (∀ (env : Env) (s : AppState) (e : String),
      env.isConnected = true →
      env.contractRead = .ok true →
      env.getAllBusinessIds = .error e →
      ((loadData env s).state).transactionStatus.status = .error
      ∧ ((loadData env s).state).scheduledClears = s.scheduledClears ++ [3000])
    ∧ (∀ (env : Env) (s : AppState) (businessId e : String),
      env.isConnected = true →
      env.address.isSome = true →
      env.contractRead = .ok true →
      env.getBusinessData businessId = .error e →
      jsIncludes e "Data already verified" = false →
      ((decryptData env businessId s).state).transactionStatus.status = .error
      ∧ ((decryptData env businessId s).state).scheduledClears
          = s.scheduledClears ++ [3000])
    ∧ (∀ (env : Env) (s : AppState) (enc : EncryptedResult) (ids : List String),
      env.isConnected = true →
      env.address.isSome = true →
      env.contractWrite = .ok true →
      env.encrypt s.contractAddress (env.address.getD "")
          (jsOrI (parseJsInt s.newCaseData.age) 0) = .ok enc →
      env.createBusinessData (plannedTx env s.newCaseData enc) = .ok () →
      env.txWait = .ok () →
      env.contractRead = .ok true →
      env.getAllBusinessIds = .ok ids →
      ((createCase env s).state).transactionStatus.status = .success
      ∧ ((createCase env s).state).scheduledClears = s.scheduledClears ++ [2000])
    ∧ (∀ (env : Env) (s : AppState),
      ((createCase env s).state).transactionStatus.status = .error →
      ((createCase env s).state).scheduledClears.getLast? = some 3000) := by
  refine ⟨?_, ?_, ?_, ?_, ?_⟩
  · intro env s e hConn hRead hAvail
    simp [testAvailability, testAvailabilityBody, M.tryFinally, M.tryCatch, hConn,
      hRead, hAvail, MRes.state, setStatusE, scheduleClear]
  · intro env s e hConn hRead hIds
    simp [loadData, loadDataBody, M.tryFinally, M.tryCatch, hConn, hRead, hIds,
      MRes.state, setStatusE, scheduleClear]
  · intro env s businessId e hConn hAddr hRead hData hMsg
    simp [decryptData, decryptBody, decryptCatch, M.tryCatch, hConn, hAddr, hRead,
      hData, hMsg, MRes.state, setStatusE, scheduleClear]
  · intro env s enc ids hConn hAddr hWrite hEnc hSub hWait hRead hIds
    simp [createCase, M.tryFinally, M.tryCatch, createBody, hConn, hAddr, hWrite,
      hEnc, hSub, hWait, hRead, hIds, loadData, loadDataBody, MRes.state,
      setStatusE, scheduleClear, addToHistory]
  · intro env s hErr
    exact (createCase_error_effects env s hErr).2

/-- Collaborators whose per-record read rejects with a generic cause. -/
def envDecFail : Env :=
  { envVerified with getBusinessData := fun _ => .error "call revert exception" }

/-- Witness for the amended C8 at concrete runs of all four operations,
including a failing create. -/
theorem status_banner_delays_witness :
    ((testAvailability envAvailFail state0).state).scheduledClears = [2000]
    ∧ ((loadData envListFail state0).state).scheduledClears = [3000]
    ∧ ((decryptData envDecFail "case-7" state0).state).scheduledClears = [3000]
    ∧ ((createCase envCreate stateForm).state).scheduledClears = [2000]
    ∧ ((createCase envCreateRejected stateForm).state).scheduledClears.getLast?
        = some 3000 := by
  have hA := status_banner_delays.1 envAvailFail state0 "rpc failure" rfl rfl rfl
  have hB := status_banner_delays.2.1 envListFail state0 "network down" rfl rfl rfl
  have hC := status_banner_delays.2.2.1 envDecFail state0 "case-7"
    "call revert exception" rfl rfl rfl rfl (by decide)
  have hD := status_banner_delays.2.2.2.1 envCreate stateForm
    ⟨"0xct", "0xpf"⟩ ["case-9"] rfl rfl rfl rfl rfl rfl rfl rfl
  have hE := status_banner_delays.2.2.2.2 envCreateRejected stateForm (by decide)
  exact ⟨hA.2, hB.2, hC.2, hD.2, hE⟩

/-- The age branch of `ModalCreateCase.handleChange`
(App.tsx lines 529-531): `value.replace(/[^\d]/g, "")` keeps only the
digits, so the form state can only ever hold a digits-only age string. -/
def handleChangeAge (value : String) : String :=
  String.mk (value.toList.filter Char.isDigit)

/-- Whatever is typed, the sanitized age field is digits-only — so the
only age strings reaching `createCase` that do not parse to a positive
integer are the empty string (`parseInt` yields `NaN`) and strings of
zeros (`parseInt` yields `0`). -/
theorem handleChangeAge_digits (value : String) :
    (handleChangeAge value).toList.all Char.isDigit = true := by
  simp only [handleChangeAge]
  have : (String.mk (value.toList.filter Char.isDigit)).toList
      = value.toList.filter Char.isDigit := rfl
  rw [this, List.all_eq_true]
  intro c hc
  exact (List.mem_filter.mp hc).2

/-- C10: when the age field does not parse to a positive integer (empty
or otherwise unparsable, so that `parseInt` yields `NaN` — or a string of
zeros), `createCase` performs no validation: it proceeds, hands the
plaintext `0` to the encryption provider, and submits the transaction
with `0` as both the public companion values — ending on the success
path, never with a validation error. -/
theorem create_unparsable_age_submits_zero
    (env : Env) (s : AppState) (enc : EncryptedResult) (ids : List String)
    (hConn : env.isConnected = true)
    (hAddr : env.address.isSome = true)
    (hAge : parseJsInt s.newCaseData.age = none ∨ parseJsInt s.newCaseData.age = some 0)
    (hWrite : env.contractWrite = .ok true)
    (hEnc : env.encrypt s.contractAddress (env.address.getD "") 0 = .ok enc)
    (hSub : env.createBusinessData (plannedTx env s.newCaseData enc) = .ok ())
    (hWait : env.txWait = .ok ())
    (hRead : env.contractRead = .ok true)
    (hIds : env.getAllBusinessIds = .ok ids) :
    (createCase env s).resolved = true
    ∧ ((createCase env s).state).encryptCalls = s.encryptCalls ++ [0]
    ∧ ((createCase env s).state).createTxs
        = s.createTxs ++ [plannedTx env s.newCaseData enc]
    ∧ (plannedTx env s.newCaseData enc).publicValue1 = 0
    ∧ (plannedTx env s.newCaseData enc).publicValue2 = 0
    ∧ ((createCase env s).state).transactionStatus.status = .success := by
  have hAge0 : jsOrI (parseJsInt s.newCaseData.age) 0 = 0 := by
    rcases hAge with h | h <;> simp [h, jsOrI]
  refine ⟨?_, ?_, ?_, ?_, ?_, ?_⟩
  · simp [createCase, M.tryFinally, M.tryCatch, createBody, hConn, hAddr, hWrite,
      hAge0, hEnc, hSub, hWait, hRead, hIds, loadData, loadDataBody, MRes.resolved,
      MRes.state, setStatusE, scheduleClear, addToHistory]
  · simp [createCase, M.tryFinally, M.tryCatch, createBody, hConn, hAddr, hWrite,
      hAge0, hEnc, hSub, hWait, hRead, hIds, loadData, loadDataBody, MRes.resolved,
      MRes.state, setStatusE, scheduleClear, addToHistory]
  · simp [createCase, M.tryFinally, M.tryCatch, createBody, hConn, hAddr, hWrite,
      hAge0, hEnc, hSub, hWait, hRead, hIds, loadData, loadDataBody, MRes.resolved,
      MRes.state, setStatusE, scheduleClear, addToHistory]
  · simp [plannedTx, hAge0]
  · simp [plannedTx]
  · simp [createCase, M.tryFinally, M.tryCatch, createBody, hConn, hAddr, hWrite,
      hAge0, hEnc, hSub, hWait, hRead, hIds, loadData, loadDataBody, MRes.resolved,
      MRes.state, setStatusE, scheduleClear, addToHistory]

/-- Form state whose age field is empty (parses to `NaN`). -/
def stateFormNoAge : AppState :=
  { state0 with newCaseData :=
      { name := "Alice", age := "", diseaseType := "Muscular Dystrophy", symptoms := "" } }

/-- Form state whose age field is a zero string (parses to `0`). -/
def stateFormZeroAge : AppState :=
  { state0 with newCaseData :=
      { name := "Alice", age := "0", diseaseType := "Muscular Dystrophy", symptoms := "" } }

/-- Witness for C10 at a concrete empty age field and a concrete zero
age field. -/
theorem create_unparsable_age_submits_zero_witness :
    ((createCase envCreate stateFormNoAge).state).encryptCalls = [0]
    ∧ (plannedTx envCreate stateFormNoAge.newCaseData ⟨"0xct", "0xpf"⟩).publicValue1 = 0
    ∧ ((createCase envCreate stateFormNoAge).state).transactionStatus.status = .success
    ∧ ((createCase envCreate stateFormZeroAge).state).encryptCalls = [0]
    ∧ (plannedTx envCreate stateFormZeroAge.newCaseData ⟨"0xct", "0xpf"⟩).publicValue1
        = 0 := by
  have h := create_unparsable_age_submits_zero envCreate stateFormNoAge
    ⟨"0xct", "0xpf"⟩ ["case-9"] rfl rfl (Or.inl rfl) rfl rfl rfl rfl rfl rfl
  have h0 := create_unparsable_age_submits_zero envCreate stateFormZeroAge
    ⟨"0xct", "0xpf"⟩ ["case-9"] rfl rfl (Or.inr (by decide)) rfl rfl rfl rfl rfl rfl
  exact ⟨h.2.1, h.2.2.2.1, h.2.2.2.2.2, h0.2.1, h0.2.2.2.1⟩

/-!
Interleaved semantics for the two temporal claims.

The app runs on the single-threaded JavaScript event loop: an `async`
function executes atomically between `await`s, and other events (such as
button clicks) are processed only at those suspension points. Each
operation is therefore modelled as a sequence of phases separated by its
`await`s; a scheduler step either handles a click (a request) or resolves
the await one in-flight invocation is currently suspended on.

The only way the UI can issue `createCase` is the submit button of
`ModalCreateCase` (App.tsx lines 484, 591-597), which is disabled while
`creating || isEncrypting` or while a required field is empty; `creatingCase`
is set synchronously before the first `await` of `createCase` (line 169)
and reset in its `finally` (line 210). The only way to issue
`decryptData` is the decrypt button of `CaseDetailModal`
(App.tsx lines 498, 610-619, 661-669), which is disabled only while
`isDecrypting` is true, and whose handler returns immediately for a
verified record (line 613).

Modelled from the spec (the fhevm-sdk hooks are code of this repository
outside src/): `useEncrypt().isEncrypting` is true exactly while an
`encrypt` call is in flight, and `useDecrypt().isDecrypting` is true
exactly while a `verifyDecryption` protocol round is in flight (§6 gives
the verifier no busy/refusal behaviour of its own — it simply runs a
round when invoked).
-/

/-- Phases of one `createCase` invocation, named by the `await` the
invocation is currently suspended on. `submitting` means suspended on
`contract.createBusinessData(...)`; resolving that await is the ledger
submission. -/
inductive CreatePhase where
  | gettingSigner
  | encrypting
  | submitting
  | confirming
  | reloading
  | done
  | failed
deriving DecidableEq, Repr

/-- Interleaving-model state for `createCase`: the `creatingCase` flag,
the form fields, the number of creation transactions submitted so far and
the phases of the invocations issued so far. -/
structure CWorld where
  creatingCase : Bool
  newCaseData : NewCaseData
  createTxCount : Nat
  rounds : List CreatePhase
deriving DecidableEq, Repr

/-- `useEncrypt().isEncrypting`: an encryption call is in flight. -/
def cIsEncrypting (w : CWorld) : Bool :=
  w.rounds.any (fun p => p == CreatePhase.encrypting)

/-- The `disabled` predicate of the create-modal submit button
(App.tsx line 593): `creating || isEncrypting || !name || !age ||
!diseaseType`. -/
def createButtonDisabled (w : CWorld) : Bool :=
  w.creatingCase || cIsEncrypting w || w.newCaseData.name == ""
    || w.newCaseData.age == "" || w.newCaseData.diseaseType == ""

/-- A click on the submit button: ignored while the button is disabled;
otherwise `createCase` starts and sets `creatingCase` synchronously before
its first `await` (App.tsx line 169). -/
def requestCreate (env : Env) (w : CWorld) : CWorld :=
  if createButtonDisabled w then w
  else if !(env.isConnected && env.address.isSome) then w
  else { w with creatingCase := true
                rounds := w.rounds ++ [CreatePhase.gettingSigner] }

/-- Resolution of the await a phase is suspended on; `ok` is whether the
awaited promise fulfilled. Returns the next phase and whether this step
submitted the creation transaction. -/
def stepCreatePhase (p : CreatePhase) (ok : Bool) : CreatePhase × Bool :=
  match p, ok with
  | .gettingSigner, true => (.encrypting, false)
  | .gettingSigner, false => (.failed, false)
  | .encrypting, true => (.submitting, false)
  | .encrypting, false => (.failed, false)
  | .submitting, true => (.confirming, true)
  | .submitting, false => (.failed, false)
  | .confirming, true => (.reloading, false)
  | .confirming, false => (.failed, false)
  | .reloading, _ => (.done, false)
  | .done, _ => (.done, false)
  | .failed, _ => (.failed, false)

/-- Replace the element at an index. -/
def modifyAt {α : Type} (f : α → α) : Nat → List α → List α
  | _, [] => []
  | 0, a :: as => f a :: as
  | n + 1, a :: as => a :: modifyAt f n as

/-- Whether an invocation in this phase has resolved (normally or not),
so that its `finally` block has run. -/
def phaseFinished : CreatePhase → Bool
  | .done => true
  | .failed => true
  | _ => false

/-- Scheduler step: the await invocation `i` is suspended on resolves
(with outcome `ok`); on reaching `done` or `failed` the `finally` block
resets `creatingCase` (App.tsx line 210). -/
def advanceCreate (w : CWorld) (i : Nat) (ok : Bool) : CWorld :=
  match w.rounds.get? i with
  | none => w
  | some p =>
    match stepCreatePhase p ok with
    | (next, submitted) =>
      { creatingCase := if phaseFinished next then false else w.creatingCase
        newCaseData := w.newCaseData
        createTxCount := w.createTxCount + (if submitted then 1 else 0)
        rounds := modifyAt (fun _ => next) i w.rounds }

/-- Run invocation `0` forward `n` suspension points on the success path. -/
def advanceCreateN : Nat → CWorld → CWorld
  | 0, w => w
  | n + 1, w => advanceCreateN n (advanceCreate w 0 true)


/-- C1: with valid form fields, a first click starts `createCase`; a
second click issued at any suspension point before the first invocation
resolves (`k ≤ 4` awaits in) finds the submit button disabled — the
request is refused, no duplicate invocation starts — and running the
first invocation to completion submits exactly one creation transaction. -/
theorem create_at_most_one_in_flight
    (env : Env) (form : NewCaseData) (k : Nat)
    (hConn : env.isConnected = true)
    (hAddr : env.address.isSome = true)
    (hName : form.name ≠ "")
    (hAge : form.age ≠ "")
    (hDis : form.diseaseType ≠ "")
    (hk : k ≤ 4) :
    requestCreate env (advanceCreateN k (requestCreate env ⟨false, form, 0, []⟩))
      = advanceCreateN k (requestCreate env ⟨false, form, 0, []⟩)
    ∧ (advanceCreateN 5 (requestCreate env
        (advanceCreateN k (requestCreate env ⟨false, form, 0, []⟩)))).createTxCount
        = 1 := by
  have hd : createButtonDisabled ⟨false, form, 0, []⟩ = false := by
    simp [createButtonDisabled, cIsEncrypting, hName, hAge, hDis]
  have hw1 : requestCreate env ⟨false, form, 0, []⟩
      = ⟨true, form, 0, [CreatePhase.gettingSigner]⟩ := by
    simp [requestCreate, hd, hConn, hAddr]
  rw [hw1]
  have hcases : k = 0 ∨ k = 1 ∨ k = 2 ∨ k = 3 ∨ k = 4 := by omega
  rcases hcases with rfl | rfl | rfl | rfl | rfl <;> exact ⟨rfl, rfl⟩

/-- Witness for C1: a concrete second click two awaits into a concrete
first create. -/
theorem create_at_most_one_in_flight_witness :
    requestCreate envCreate
        (advanceCreateN 2 (requestCreate envCreate
          ⟨false, stateForm.newCaseData, 0, []⟩))
      = advanceCreateN 2 (requestCreate envCreate ⟨false, stateForm.newCaseData, 0, []⟩)
    ∧ (advanceCreateN 5 (requestCreate envCreate
        (advanceCreateN 2 (requestCreate envCreate
          ⟨false, stateForm.newCaseData, 0, []⟩)))).createTxCount = 1 :=
  create_at_most_one_in_flight envCreate stateForm.newCaseData 2
    rfl rfl (by decide) (by decide) (by decide) (by decide)

/-- Phases of one `decryptData` invocation on an unverified record, named
by the `await` it is suspended on (App.tsx lines 222, 225, 234, 237, 239,
250): `verifying` is the `verifyDecryption` protocol round itself. -/
inductive DecryptPhase where
  | gettingContract
  | gettingData
  | gettingSigner
  | gettingHandle
  | verifying
  | reloading
  | done
deriving DecidableEq, Repr

/-- Interleaving-model state for `decryptData`: the decrypt invocations
issued so far, each with its record key and current phase. -/
structure DWorld where
  invocations : List (String × DecryptPhase)
deriving DecidableEq, Repr

/-- `useDecrypt().isDecrypting`: a `verifyDecryption` round is in flight. -/
def sdkDecryptBusy (w : DWorld) : Bool :=
  w.invocations.any (fun kp => kp.2 == DecryptPhase.verifying)

/-- A click on the decrypt button of the detail modal for the record
`key`: ignored while the button is disabled (`disabled={isDecrypting}`,
App.tsx line 665) and when the displayed record is already verified
(`handleDecrypt` returns at once, line 613); otherwise a `decryptData`
invocation starts. -/
def requestDecrypt (w : DWorld) (key : String) (isVerified : Bool) : DWorld :=
  if sdkDecryptBusy w then w
  else if isVerified then w
  else ⟨w.invocations ++ [(key, DecryptPhase.gettingContract)]⟩

/-- Success-path resolution of the await a phase is suspended on. -/
def nextDecryptPhase : DecryptPhase → DecryptPhase
  | .gettingContract => .gettingData
  | .gettingData => .gettingSigner
  | .gettingSigner => .gettingHandle
  | .gettingHandle => .verifying
  | .verifying => .reloading
  | .reloading => .done
  | .done => .done

/-- Scheduler step: the await invocation `i` is suspended on resolves. -/
def advanceDecrypt (w : DWorld) (i : Nat) : DWorld :=
  ⟨modifyAt (fun kp => (kp.1, nextDecryptPhase kp.2)) i w.invocations⟩

/-- Number of decryption protocol rounds currently in flight for `key`. -/
def verifyRoundsInFlight (w : DWorld) (key : String) : Nat :=
  (w.invocations.filter
    (fun kp => kp.1 == key && kp.2 == DecryptPhase.verifying)).length

/-- A reachable schedule: a first decrypt of `case-7` is issued and
suspends on its `getBusinessData` await; a second decrypt of the same key
is clicked (the button is not disabled — no verifier round is in flight
yet); both then run forward to their `verifyDecryption` calls. -/
def dupDecryptWorld : DWorld :=
  let w1 := requestDecrypt ⟨[]⟩ "case-7" false
  let w2 := advanceDecrypt w1 0
  let w3 := requestDecrypt w2 "case-7" false
  let w4 := advanceDecrypt (advanceDecrypt (advanceDecrypt w3 0) 0) 0
  advanceDecrypt (advanceDecrypt (advanceDecrypt (advanceDecrypt w4 1) 1) 1) 1

/-- Counterexample to C4 as stated: a second decrypt for the same key
issued while the first is pending (suspended before its verifier round)
is accepted, and the schedule reaches a state with TWO decryption
protocol rounds in flight for that key — the per-key at-most-one-round
guarantee does not hold. -/
theorem decrypt_duplicate_round_schedule :
    (requestDecrypt (advanceDecrypt (requestDecrypt ⟨[]⟩ "case-7" false) 0)
        "case-7" false).invocations.length = 2
    ∧ verifyRoundsInFlight dupDecryptWorld "case-7" = 2 := by
  decide

/-- C4 (amended): a decrypt request issued while a decryption verifier
round is in flight is refused (the decrypt button is disabled while
`isDecrypting`), and a decrypt request on an already-verified record is a
no-op; only a request issued while a pending decrypt has not yet reached
its verifier round is accepted. -/
theorem decrypt_refused_while_round_in_flight :
    (∀ (w : DWorld) (key : String) (isVerified : Bool),
      sdkDecryptBusy w = true → requestDecrypt w key isVerified = w)
    ∧ (∀ (w : DWorld) (key : String), requestDecrypt w key true = w) := by
  constructor
  · intro w key isVerified hBusy
    simp [requestDecrypt, hBusy]
  · intro w key
    simp [requestDecrypt]

/-- Witness for the amended C4: with one round in flight a same-key
request is refused. -/
theorem decrypt_refused_while_round_in_flight_witness :
    sdkDecryptBusy ⟨[("case-7", DecryptPhase.verifying)]⟩ = true
    ∧ requestDecrypt ⟨[("case-7", DecryptPhase.verifying)]⟩ "case-7" false
        = ⟨[("case-7", DecryptPhase.verifying)]⟩ :=
  ⟨by decide,
    decrypt_refused_while_round_in_flight.1
      ⟨[("case-7", DecryptPhase.verifying)]⟩ "case-7" false (by decide)⟩
